import Mathlib

/-!
Shallow embedding of the result-aggregation and file-resolution engine of
`src/visualize.py` (PageRank / PPR / PUSH benchmark visualization script).

Numbers are modelled as exact rationals (`ℚ`): the Python script manipulates
JSON numbers with `numpy` means and population standard deviations, and every
claim under study is about which observations are pooled and which statistic
is formed, not about floating-point rounding.  `np.mean`/`np.std` on an empty
sample return NaN in numpy; that case is modelled by `Option ℚ` with `none`
standing for NaN.  Standard deviations are carried through the embedding as
their squares (`…_var` fields, exact rationals); `npStd` below is the actual
square root, used where a claim speaks about the standard deviation itself.
-/

namespace Visualize

/-- `np.mean(xs)`: arithmetic mean of the sample; NaN (here `none`) on an
empty sample.  Mirrors the calls at lines 86-89 and 169-206 of
`src/visualize.py`. -/
def npMean (xs : List ℚ) : Option ℚ :=
  match xs with
  | [] => none
  | _ => some (xs.sum / (xs.length : ℚ))

/-- Square of `np.std(xs)`: the population variance (numpy default
`ddof = 0`), i.e. the mean of squared deviations from the sample mean;
NaN (`none`) on an empty sample. -/
def npVar (xs : List ℚ) : Option ℚ :=
  match xs with
  | [] => none
  | _ => some (((xs.map (fun x => (x - xs.sum / (xs.length : ℚ)) ^ 2)).sum) / (xs.length : ℚ))

/-- `np.std(xs)` itself: the square root of the population variance. -/
noncomputable def npStd (xs : List ℚ) : Option ℝ :=
  (npVar xs).map (fun v => Real.sqrt (v : ℝ))

/-- Python exceptions that the modelled code paths can raise. -/
inductive PyErr
  /-- `TypeError`: e.g. indexing the string keys produced by iterating a dict
  as if they were row objects. -/
  | typeError
  /-- `json.JSONDecodeError` raised by `load_json` on a corrupt file
  (the spec's `MalformedRecord`). -/
  | malformedRecord
deriving DecidableEq

/-- One row of a convergence result list: keys `tolerance`, `iterations`,
`executionTimeMs` (all required by `load_multiple_runs`, lines 77-79). -/
structure ConvRow where
  tolerance : ℚ
  iterations : ℚ
  executionTimeMs : ℚ
deriving DecidableEq

/-- A loaded convergence JSON document.  `listDoc` is a top-level JSON array
of rows; `objDoc` models a top-level JSON object (assumed non-empty, hence
truthy in Python). -/
inductive ConvDoc
  | listDoc (rows : List ConvRow)
  | objDoc
deriving DecidableEq

def ConvDoc.rows : ConvDoc → List ConvRow
  | .listDoc rs => rs
  | .objDoc => []

def ConvDoc.isList : ConvDoc → Bool
  | .listDoc _ => true
  | .objDoc => false

/-- One element of the list returned by `load_multiple_runs`
(lines 84-90): per-tolerance pooled mean and (squared) population standard
deviation of `iterations` and `executionTimeMs`. -/
structure ConvAvg where
  tolerance : ℚ
  iterations : Option ℚ
  iterations_var : Option ℚ
  executionTimeMs : Option ℚ
  executionTimeMs_var : Option ℚ
deriving DecidableEq

/-- The averaged entry emitted for one tolerance bucket by
`load_multiple_runs` (lines 84-90): the bucket is the sub-list of pooled
rows whose parsed `tolerance` equals `t`. -/
def convAvgOf (rows : List ConvRow) (t : ℚ) : ConvAvg :=
  let b := rows.filter (fun r => r.tolerance = t)
  { tolerance := t
    iterations := npMean (b.map (·.iterations))
    iterations_var := npVar (b.map (·.iterations))
    executionTimeMs := npMean (b.map (·.executionTimeMs))
    executionTimeMs_var := npVar (b.map (·.executionTimeMs)) }

/-- `load_multiple_runs` (lines 47-94) applied to the already-globbed,
sorted list of matching files (each given as its loaded document):
* no matching file → `None` (line 61);
* first document not a list → falls through the `isinstance` check and
  returns `None` (line 94);
* first document a list: every document is iterated row by row; a dict
  among the remaining documents makes `result['tolerance']` index the
  dict's string keys, raising `TypeError`;
* rows are grouped by the parsed numeric `tolerance` value in a
  `defaultdict` (lines 73-79), then one averaged entry is emitted per
  tolerance in ascending order (lines 82-92). -/
def load_multiple_runs : List ConvDoc → Except PyErr (Option (List ConvAvg))
  | [] => .ok none
  | first :: rest =>
    match first with
    | .objDoc => .ok none
    | .listDoc _ =>
      if (first :: rest).all (·.isList) then
        let rows := ((first :: rest).map ConvDoc.rows).flatten
        let keys := ((rows.map (·.tolerance)).dedup).insertionSort (· ≤ ·)
        .ok (some (keys.map (convAvgOf rows)))
      else .error .typeError

/-- Python truthiness of a `load_multiple_runs` result: `None` and the empty
list `[]` are falsy, a non-empty list is truthy (`if pr_data:` at line 229). -/
def truthyList (o : Option (List α)) : Bool :=
  match o with
  | none => false
  | some l => !l.isEmpty

/-- Which data source the PageRank branch of `plot_convergence` ends up
plotting from. -/
inductive PrSrc
  /-- the `pr_convergence_run*.json` multi-run set (lines 228-246) -/
  | multiRun
  /-- `pr_convergence.json` (first fallback, line 250) -/
  | singleFile
  /-- `test_pr_conv.json` (second fallback, line 251) -/
  | testFile
deriving DecidableEq

/-- The single-file fallback loop of `plot_convergence` (lines 249-264):
visit the fallback paths in order; a missing file is skipped; for an
existing file `data = load_json(...)` and if `data` is truthy the rows are
extracted and the loop breaks.  A falsy document (empty list) does not
break, so the next fallback is consulted.  A (non-empty) JSON object is
truthy, and the row extraction `[d['tolerance'] for d in data]` then
iterates the dict's string keys and raises `TypeError`. -/
def convFallback : List (PrSrc × Option ConvDoc) → Except PyErr (Option PrSrc)
  | [] => .ok none
  | (tag, fileOpt) :: rest =>
    match fileOpt with
    | none => convFallback rest
    | some d =>
      match d with
      | .objDoc => .error .typeError
      | .listDoc [] => convFallback rest
      | .listDoc (_ :: _) => .ok (some tag)

/-- The files relevant to the PageRank branch of `plot_convergence`:
the sorted `pr_convergence_run*.json` glob matches and the two fallback
locations (`none` = the file does not exist). -/
structure ConvFS where
  runFiles : List ConvDoc
  singleFile : Option ConvDoc
  testFile : Option ConvDoc
deriving DecidableEq

/-- The PageRank branch of `plot_convergence` (lines 228-264), reduced to
which source provides the plotted data: the multi-run loader is tried
first and its result used iff truthy; otherwise the fallback loop runs.
Returns `none` when no source yields data (`has_data` stays false for
this branch). -/
def plot_convergence_pr (fs : ConvFS) : Except PyErr (Option PrSrc) :=
  match load_multiple_runs fs.runFiles with
  | .error e => .error e
  | .ok od =>
    if truthyList od then .ok (some .multiRun)
    else convFallback [(.singleFile, fs.singleFile), (.testFile, fs.testFile)]

/-- The `comparison` sub-object of one PUSH row (lines 154-156): all three
keys are accessed unconditionally, hence required. -/
structure Comparison where
  l1Distance : ℚ
  l2Distance : ℚ
  correlation : ℚ
deriving DecidableEq

/-- One element of a comparison document's `push` list (lines 146-156).
`preprocessingTimeMs` and `algorithmTimeMs` are read with `.get` and
defaults, hence optional; every other key is accessed with `[...]`, hence
required. -/
structure PushRow where
  epsilon : ℚ
  pushOperations : ℚ
  nodesProcessed : ℚ
  executionTimeMs : ℚ
  preprocessingTimeMs : Option ℚ
  algorithmTimeMs : Option ℚ
  communitySize : ℚ
  comparison : Comparison
deriving DecidableEq

/-- One element of a comparison document's `speedup` list (lines 159-166):
all value keys are read through `.get` chains, hence optional. -/
structure SpeedupRow where
  epsilon : ℚ
  speedupFactorTotal : Option ℚ
  speedupFactor : Option ℚ
  speedupFactorAlgorithmOnly : Option ℚ
deriving DecidableEq

/-- The `ppr` sub-object of a comparison document (lines 139-143):
`preprocessingTimeMs` and `algorithmTimeMs` optional, the rest required. -/
structure PprResult where
  iterations : ℚ
  executionTimeMs : ℚ
  preprocessingTimeMs : Option ℚ
  algorithmTimeMs : Option ℚ
  communitySize : ℚ
deriving DecidableEq

/-- One loaded PUSH-vs-PPR comparison document: keys `ppr`, `push`,
`speedup` (all accessed unconditionally in lines 139-166). -/
structure CompareDoc where
  ppr : PprResult
  push : List PushRow
  speedup : List SpeedupRow
deriving DecidableEq

/-- `d.get(k1, d.get(k2, dflt))`: first key if present, else second key if
present, else the default. -/
def getD2 (a b : Option ℚ) (dflt : ℚ) : ℚ :=
  match a with
  | some v => v
  | none => b.getD dflt

/-- The `ppr` part of the dict returned by `load_multiple_compare_runs`
(lines 169-175): one scalar mean per metric over all documents. -/
structure PprAvg where
  iterations : Option ℚ
  executionTimeMs : Option ℚ
  preprocessingTimeMs : Option ℚ
  algorithmTimeMs : Option ℚ
  communitySize : Option ℚ
deriving DecidableEq

/-- One element of the `push` list returned by `load_multiple_compare_runs`
(lines 181-199); `…_var` fields are the squares of the emitted `…_std`
entries. -/
structure PushAvg where
  epsilon : ℚ
  pushOperations : Option ℚ
  pushOperations_var : Option ℚ
  nodesProcessed : Option ℚ
  executionTimeMs : Option ℚ
  executionTimeMs_var : Option ℚ
  preprocessingTimeMs : Option ℚ
  algorithmTimeMs : Option ℚ
  communitySize : Option ℚ
  l1Distance : Option ℚ
  l1Distance_var : Option ℚ
  l2Distance : Option ℚ
  l2Distance_var : Option ℚ
  correlation : Option ℚ
  correlation_var : Option ℚ
deriving DecidableEq

/-- One element of the `speedup` list returned by
`load_multiple_compare_runs` (lines 201-207). -/
structure SpeedupAvg where
  epsilon : ℚ
  speedupFactorTotal : Option ℚ
  speedupFactorTotal_var : Option ℚ
  speedupFactorAlgorithmOnly : Option ℚ
  speedupFactorAlgorithmOnly_var : Option ℚ
deriving DecidableEq

/-- The dict returned by `load_multiple_compare_runs` (lines 209-213). -/
structure CompareAvg where
  ppr : PprAvg
  push : List PushAvg
  speedup : List SpeedupAvg
deriving DecidableEq

/-- `load_multiple_compare_runs` (lines 96-213) applied to the
already-globbed, sorted list of matching files (each as its loaded
document):
* no matching file → `None` (line 111);
* otherwise PUSH rows of all documents are pooled and grouped by the
  parsed numeric `epsilon` (a `defaultdict`, lines 120-124 and 146-156);
  missing `preprocessingTimeMs` contributes the default `0`, missing
  `algorithmTimeMs` the row's `executionTimeMs`;
* speedup rows are likewise pooled by `epsilon` (lines 133-135, 159-166)
  with the `.get` default chains of lines 161-166;
* the PPR scalars are pooled over documents (lines 139-143, 169-175);
* the output `push` and `speedup` lists are both emitted inside one loop
  over `sorted(push_grouped.keys())` (lines 180-207), so an epsilon
  occurring only in `speedup` lists is dropped, and for an epsilon with no
  speedup observation the `defaultdict` yields empty sample lists whose
  numpy mean is NaN (`none` here).

The next two definitions are the loop bodies of lines 181-199 and
201-207; `load_multiple_compare_runs` itself follows. -/
def pushAvgOf (pushRows : List PushRow) (eps : ℚ) : PushAvg :=
  let b := pushRows.filter (fun r => r.epsilon = eps)
  { epsilon := eps
    pushOperations := npMean (b.map (·.pushOperations))
    pushOperations_var := npVar (b.map (·.pushOperations))
    nodesProcessed := npMean (b.map (·.nodesProcessed))
    executionTimeMs := npMean (b.map (·.executionTimeMs))
    executionTimeMs_var := npVar (b.map (·.executionTimeMs))
    preprocessingTimeMs := npMean (b.map (fun r => r.preprocessingTimeMs.getD 0))
    algorithmTimeMs := npMean (b.map (fun r => r.algorithmTimeMs.getD r.executionTimeMs))
    communitySize := npMean (b.map (·.communitySize))
    l1Distance := npMean (b.map (·.comparison.l1Distance))
    l1Distance_var := npVar (b.map (·.comparison.l1Distance))
    l2Distance := npMean (b.map (·.comparison.l2Distance))
    l2Distance_var := npVar (b.map (·.comparison.l2Distance))
    correlation := npMean (b.map (·.comparison.correlation))
    correlation_var := npVar (b.map (·.comparison.correlation)) }

/-- The averaged speedup entry emitted for one epsilon (lines 201-207),
with the `.get` default chains of lines 161-166 applied to the pooled
speedup rows whose `epsilon` equals `eps`. -/
def speedupAvgOf (speedRows : List SpeedupRow) (eps : ℚ) : SpeedupAvg :=
  let sb := speedRows.filter (fun s => s.epsilon = eps)
  { epsilon := eps
    speedupFactorTotal :=
      npMean (sb.map (fun s => getD2 s.speedupFactorTotal s.speedupFactor 1))
    speedupFactorTotal_var :=
      npVar (sb.map (fun s => getD2 s.speedupFactorTotal s.speedupFactor 1))
    speedupFactorAlgorithmOnly :=
      npMean (sb.map (fun s => getD2 s.speedupFactorAlgorithmOnly s.speedupFactorTotal 1))
    speedupFactorAlgorithmOnly_var :=
      npVar (sb.map (fun s => getD2 s.speedupFactorAlgorithmOnly s.speedupFactorTotal 1)) }

def load_multiple_compare_runs : List CompareDoc → Option CompareAvg
  | [] => none
  | d :: rest =>
    let docs := d :: rest
    let pushRows := (docs.map (·.push)).flatten
    let speedRows := (docs.map (·.speedup)).flatten
    let keys := ((pushRows.map (·.epsilon)).dedup).insertionSort (· ≤ ·)
    some {
      ppr := {
        iterations := npMean (docs.map (·.ppr.iterations))
        executionTimeMs := npMean (docs.map (·.ppr.executionTimeMs))
        preprocessingTimeMs := npMean (docs.map (fun d => d.ppr.preprocessingTimeMs.getD 0))
        algorithmTimeMs := npMean (docs.map (fun d => d.ppr.algorithmTimeMs.getD d.ppr.executionTimeMs))
        communitySize := npMean (docs.map (·.ppr.communitySize)) }
      push := keys.map (pushAvgOf pushRows)
      speedup := keys.map (speedupAvgOf speedRows) }

/-- Which data source `plot_push_vs_ppr` ends up plotting from. -/
inductive PushSrc
  /-- the `compare_seed0_run*.json` multi-run set (line 497) -/
  | multiRun
  /-- `push/compare_seed0.json` (line 502) -/
  | singleFile
  /-- `push_vs_ppr_seed0.json`, the old location (line 503) -/
  | oldFile
  /-- `test_compare.json` (line 504) -/
  | testFile
deriving DecidableEq

/-- Outcome of `plot_push_vs_ppr`: either a plot from some source, or the
skip branch of lines 512-515 (print a message and return normally). -/
inductive PushOutcome
  | plotted (src : PushSrc)
  | skipped
deriving DecidableEq

/-- The fallback loop of `plot_push_vs_ppr` (lines 507-510): the first
existing file is loaded and the loop breaks unconditionally. -/
def pushFallback : List (PushSrc × Option CompareDoc) → Option PushSrc
  | [] => none
  | (tag, some _) :: _ => some tag
  | (_, none) :: rest => pushFallback rest

/-- The files relevant to `plot_push_vs_ppr`: the sorted
`compare_seed0_run*.json` glob matches and the three fallback locations. -/
structure PushFS where
  runFiles : List CompareDoc
  singleFile : Option CompareDoc
  oldFile : Option CompareDoc
  testFile : Option CompareDoc
deriving DecidableEq

/-- The source-resolution part of `plot_push_vs_ppr` (lines 487-515):
`load_multiple_compare_runs` first; if it returned `None`, the first
existing fallback file; if still no data, the skip branch. -/
def plot_push_vs_ppr (fs : PushFS) : Except PyErr PushOutcome :=
  match load_multiple_compare_runs fs.runFiles with
  | some _ => .ok (.plotted .multiRun)
  | none =>
    match pushFallback
        [(.singleFile, fs.singleFile), (.oldFile, fs.oldFile), (.testFile, fs.testFile)] with
    | some tag => .ok (.plotted tag)
    | none => .ok .skipped

/-- One point of the community-size-vs-threshold series in
`plot_communities`: pooled mean and (squared) standard deviation, or the
marker `missing` that is filtered out at line 407. -/
inductive CommEntry
  | stats (mean v : Option ℚ)
  | missing
deriving DecidableEq

/-- The per-threshold resolution of `plot_communities` (lines 385-404):
`runSizes` are the `communitySize` values of the matching
`community_threshold_<t>_run*.json` files, `singleSize` the value of the
single `community_threshold_<t>.json` if it exists.  With run files the
pooled numpy mean and standard deviation are used (lines 389-394); with
only the single file the value is used with a literal standard deviation
`0` (lines 397-401); with neither the entry is `(None, None)`
(lines 403-404). -/
def communityThresholdEntry (runSizes : List ℚ) (singleSize : Option ℚ) : CommEntry :=
  match runSizes with
  | [] =>
    match singleSize with
    | some s => .stats (some s) (some 0)
    | none => .missing
  | _ => .stats (npMean runSizes) (npVar runSizes)

/-- Round a rational to the nearest integer, ties to even — the rounding
used by Python's `format` when it shortens a decimal mantissa. -/
def roundHalfEven (q : ℚ) : ℤ :=
  let f := ⌊q⌋
  let frac := q - (f : ℚ)
  if frac < 1 / 2 then f
  else if 1 / 2 < frac then f + 1
  else if 2 ∣ f then f else f + 1

/-- Put a positive rational into decimal scientific form: scale `x` by
powers of ten, tracking the exponent, until the mantissa lies in
`[1, 10)`.  The fuel bounds the exponent range to `±64`, which covers
every magnitude the benchmark data can take; outside it the formatter
gives up (`none`), a case no modelled value reaches. -/
def toSci (fuel : ℕ) (x : ℚ) (e : ℤ) : Option (ℚ × ℤ) :=
  match fuel with
  | 0 => none
  | f + 1 =>
    if x < 1 then toSci f (10 * x) (e - 1)
    else if 10 ≤ x then toSci f (x / 10) (e + 1)
    else some (x, e)

/-- Left-pad a natural number to two decimal digits. -/
def pad2 (n : ℕ) : String :=
  if n < 10 then "0" ++ toString n else toString n

/-- Exponent part of a `%e`-formatted float: an explicit sign followed by
(at least) two digits. -/
def expPart (e : ℤ) : String :=
  (if e < 0 then "-" else "+") ++ pad2 e.natAbs

/-- `f"{x:.0e}"` for a positive rational: one rounded (half-to-even)
mantissa digit, `e`, and the signed two-digit exponent; a mantissa that
rounds up to `10` carries into the exponent. -/
def fmt0ePos (x : ℚ) : Option String :=
  match toSci 64 x 0 with
  | none => none
  | some (m, e) =>
    let d := roundHalfEven m
    if d = 10 then some ("1e" ++ expPart (e + 1))
    else some (toString d.natAbs ++ "e" ++ expPart e)

/-- `f"{x:.0e}"`: Python's scientific formatting with zero digits after the
decimal point, as used for the bucket keys of `plot_scalability`
(lines 721, 733, 746, 758, 770, 785). -/
def fmt0e (x : ℚ) : Option String :=
  if x = 0 then some ("0e+00")
  else if x < 0 then (fmt0ePos (-x)).map (fun s => "-" ++ s)
  else fmt0ePos x

/-- The fixed tolerance keys of the `pr_data` / `ppr_data` dicts in
`plot_scalability` (lines 696-697). -/
def scalPrKeys : List String := ["1e-03", "1e-05", "1e-07"]

/-- The fixed epsilon keys of the `push_data` dict in `plot_scalability`
(line 698). -/
def scalPushKeys : List String := ["1e-02", "1e-03", "1e-04", "1e-05"]

/-- The convergence-row bucketing of `plot_scalability` (lines 720-725 and
the identical blocks for the other layouts): a row lands in the sample
list of key `k` exactly when `f"{tolerance:.0e}"` equals `k` and `k` is
one of the pre-seeded dict keys; all other rows are skipped by the
`if tol_str in pr_data` guard without any error or report. -/
def scalConvBucket (rows : List ConvRow) (k : String) : List ConvRow :=
  if k ∈ scalPrKeys then rows.filter (fun r => fmt0e r.tolerance = some k) else []

/-- The PUSH-row bucketing of `plot_scalability` (lines 769-778): same
scheme keyed on `f"{epsilon:.0e}"` against the pre-seeded epsilon keys. -/
def scalPushBucket (rows : List PushRow) (k : String) : List PushRow :=
  if k ∈ scalPushKeys then rows.filter (fun r => fmt0e r.epsilon = some k) else []

/-- The try/except skeleton of `main` (lines 1092-1131), given the outcome
of each plot function in program order: every attempt is executed; a
success increments `graphs_generated`, a caught exception leaves it
unchanged, and the final value is reported at lines 1135-1136. -/
def main_graphs_generated : List (Except PyErr Unit) → ℕ
  | [] => 0
  | .ok _ :: rest => main_graphs_generated rest + 1
  | .error _ :: rest => main_graphs_generated rest

/-- `True` for a plot attempt that completed without raising. -/
def stepOk : Except PyErr Unit → Bool
  | .ok _ => true
  | .error _ => false

/-! ### Concrete documents used as inputs by the theorems below -/

/-- A minimal well-formed `ppr` sub-object. -/
def pprR : PprResult := ⟨1, 1, none, none, 1⟩

/-- A comparison document with a single PUSH row at `epsilon = 1e-3` whose
optional `preprocessingTimeMs` field is `pre`, and an empty speedup
list. -/
def compDocPre (pre : Option ℚ) : CompareDoc :=
  ⟨pprR, [⟨1/1000, 1, 1, 1, pre, none, 1, ⟨0, 0, 1⟩⟩], []⟩

/-- A comparison document whose `push` list reports only `epsilon = 1e-2`
while its `speedup` list reports only `epsilon = 1e-3`: the two epsilon
sets are disjoint. -/
def compDocMismatch : CompareDoc :=
  ⟨pprR, [⟨1/100, 1, 1, 1, none, none, 1, ⟨0, 0, 1⟩⟩], [⟨1/1000, some 5, none, none⟩]⟩

/-- A comparison document with empty `push` and `speedup` lists. -/
def compDocEmpty : CompareDoc := ⟨pprR, [], []⟩

/-! ### Evaluation helpers

Small lemmas that let the concrete theorems below evaluate the embedded
functions step by step (the `Rat` arithmetic of the standard library does
not reduce definitionally, so evaluation goes through `simp`/`norm_num`). -/

theorem toSci_step_lt (f : ℕ) (x : ℚ) (e : ℤ) (h : x < 1) :
    toSci (f + 1) x e = toSci f (10 * x) (e - 1) := by
  rw [toSci]
  simp [h]

theorem toSci_step_ge (f : ℕ) (x : ℚ) (e : ℤ) (h : 10 ≤ x) :
    toSci (f + 1) x e = toSci f (x / 10) (e + 1) := by
  have h1 : ¬ x < 1 := not_lt_of_ge (le_trans (by norm_num) h)
  rw [toSci]
  simp [h, h1]

theorem toSci_step_done (f : ℕ) (x : ℚ) (e : ℤ) (h1 : 1 ≤ x) (h2 : x < 10) :
    toSci (f + 1) x e = some (x, e) := by
  rw [toSci]
  simp [not_lt_of_ge h1, not_le_of_lt h2]

theorem fmt0e_eq (x m : ℚ) (e d : ℤ) (hx : 0 < x)
    (hsci : toSci 64 x 0 = some (m, e)) (hd : roundHalfEven m = d) (hne : d ≠ 10) :
    fmt0e x = some (toString d.natAbs ++ "e" ++ expPart e) := by
  simp [fmt0e, hx.ne', not_lt_of_gt hx, fmt0ePos, hsci, hd, hne]

theorem fmt0e_eq_carry (x m : ℚ) (e : ℤ) (hx : 0 < x)
    (hsci : toSci 64 x 0 = some (m, e)) (hd : roundHalfEven m = 10) :
    fmt0e x = some ("1e" ++ expPart (e + 1)) := by
  simp [fmt0e, hx.ne', not_lt_of_gt hx, fmt0ePos, hsci, hd]

theorem fmt0e_1000th : fmt0e (1/1000) = some "1e-03" := by
  have h : fmt0e (1/1000) = some (toString (1 : ℤ).natAbs ++ "e" ++ expPart (-3)) := by
    refine fmt0e_eq _ 1 _ 1 (by norm_num) ?_ ?_ (by decide)
    · norm_num [toSci_step_lt, toSci_step_done]
    · norm_num [roundHalfEven]
  rw [h]
  decide

theorem fmt0e_3_2500th : fmt0e (3/2500) = some "1e-03" := by
  have h : fmt0e (3/2500) = some (toString (1 : ℤ).natAbs ++ "e" ++ expPart (-3)) := by
    refine fmt0e_eq _ (6/5) _ 1 (by norm_num) ?_ ?_ (by decide)
    · norm_num [toSci_step_lt, toSci_step_done]
    · norm_num [roundHalfEven]
  rw [h]
  decide

theorem fmt0e_100000th : fmt0e (1/100000) = some "1e-05" := by
  have h : fmt0e (1/100000) = some (toString (1 : ℤ).natAbs ++ "e" ++ expPart (-5)) := by
    refine fmt0e_eq _ 1 _ 1 (by norm_num) ?_ ?_ (by decide)
    · norm_num [toSci_step_lt, toSci_step_done]
    · norm_num [roundHalfEven]
  rw [h]
  decide

theorem fmt0e_10000000th : fmt0e (1/10000000) = some "1e-07" := by
  have h : fmt0e (1/10000000) = some (toString (1 : ℤ).natAbs ++ "e" ++ expPart (-7)) := by
    refine fmt0e_eq _ 1 _ 1 (by norm_num) ?_ ?_ (by decide)
    · norm_num [toSci_step_lt, toSci_step_done]
    · norm_num [roundHalfEven]
  rw [h]
  decide

theorem fmt0e_100th : fmt0e (1/100) = some "1e-02" := by
  have h : fmt0e (1/100) = some (toString (1 : ℤ).natAbs ++ "e" ++ expPart (-2)) := by
    refine fmt0e_eq _ 1 _ 1 (by norm_num) ?_ ?_ (by decide)
    · norm_num [toSci_step_lt, toSci_step_done]
    · norm_num [roundHalfEven]
  rw [h]
  decide

theorem fmt0e_10000th : fmt0e (1/10000) = some "1e-04" := by
  have h : fmt0e (1/10000) = some (toString (1 : ℤ).natAbs ++ "e" ++ expPart (-4)) := by
    refine fmt0e_eq _ 1 _ 1 (by norm_num) ?_ ?_ (by decide)
    · norm_num [toSci_step_lt, toSci_step_done]
    · norm_num [roundHalfEven]
  rw [h]
  decide

@[simp] theorem convAvgOf_tolerance (rows : List ConvRow) (t : ℚ) :
    (convAvgOf rows t).tolerance = t := rfl

@[simp] theorem pushAvgOf_epsilon (pushRows : List PushRow) (k : ℚ) :
    (pushAvgOf pushRows k).epsilon = k := rfl

@[simp] theorem speedupAvgOf_epsilon (speedRows : List SpeedupRow) (k : ℚ) :
    (speedupAvgOf speedRows k).epsilon = k := rfl

theorem map_epsilon_pushAvgOf (pushRows : List PushRow) (keys : List ℚ) :
    (keys.map (pushAvgOf pushRows)).map (fun p => p.epsilon) = keys := by
  induction keys with
  | nil => rfl
  | cons k ks ih => simp [ih]

theorem map_epsilon_speedupAvgOf (speedRows : List SpeedupRow) (keys : List ℚ) :
    (keys.map (speedupAvgOf speedRows)).map (fun s => s.epsilon) = keys := by
  induction keys with
  | nil => rfl
  | cons k ks ih => simp [ih]

/-- Evaluation of `load_multiple_runs` on three one-row files sharing one
tolerance: the single bucket pools the three rows. -/
theorem load_multiple_runs_three (t i1 e1 i2 e2 i3 e3 : ℚ) :
    load_multiple_runs [ConvDoc.listDoc [⟨t, i1, e1⟩], ConvDoc.listDoc [⟨t, i2, e2⟩],
      ConvDoc.listDoc [⟨t, i3, e3⟩]] =
    Except.ok (some [⟨t, npMean [i1, i2, i3], npVar [i1, i2, i3],
      npMean [e1, e2, e3], npVar [e1, e2, e3]⟩]) := by
  simp [load_multiple_runs, convAvgOf, ConvDoc.rows, ConvDoc.isList, List.dedup_cons_of_mem,
    List.insertionSort, List.orderedInsert, List.filter]

/-! ### Claims -/

/-- **C2.**  Pooled statistics: three run files, each containing one row
with `tolerance = 1e-5` and `iterations` 10, 20, 30 (and execution times
1, 2, 3), reduce to a single bucket whose `iterations` mean is the
arithmetic mean `20` of the pooled rows and whose standard deviation is
the population standard deviation `sqrt(200/3) ≈ 8.16` of the pooled rows
(squared: `iterations_std² = 200/3`) — not a file-wise average of
per-file statistics, which would give deviation `0` since every file has
a single row. -/
theorem C2_pooled_population_stats :
    load_multiple_runs [ConvDoc.listDoc [⟨1/100000, 10, 1⟩], ConvDoc.listDoc [⟨1/100000, 20, 2⟩],
      ConvDoc.listDoc [⟨1/100000, 30, 3⟩]] =
      Except.ok (some [⟨1/100000, some 20, some (200/3), some 2, some (2/3)⟩]) ∧
    npStd [10, 20, 30] = some (Real.sqrt ((200 : ℝ) / 3)) := by
  constructor
  · rw [load_multiple_runs_three]
    norm_num [npMean, npVar]
  · have h : npVar [10, 20, 30] = some (200/3) := by norm_num [npVar]
    simp [npStd, h]

/-- **C6.**  The `main` driver wraps each plot family in its own
`try`/`except`: a failure (for example a `MalformedRecord` parse error)
in one family removes only that family's contribution, the families
before and after it still run and are counted, and the final
`graphs_generated` equals the number of families that succeeded. -/
theorem C6_failure_isolation :
    (∀ (xs ys : List (Except PyErr Unit)) (e : PyErr),
      main_graphs_generated (xs ++ .error e :: ys) =
        main_graphs_generated xs + main_graphs_generated ys) ∧
    (∀ steps : List (Except PyErr Unit),
      main_graphs_generated steps = (steps.filter stepOk).length) := by
  constructor
  · intro xs ys e
    induction xs with
    | nil => simp [main_graphs_generated]
    | cons x rest ih =>
      cases x with
      | ok u => simp [main_graphs_generated, ih]; omega
      | error f => simp [main_graphs_generated, ih]
  · intro steps
    induction steps with
    | nil => rfl
    | cons x rest ih =>
      cases x with
      | ok u => simp [main_graphs_generated, stepOk, ih]
      | error f => simp [main_graphs_generated, stepOk, ih]

/-- **C7.**  An experiment key with no matching file anywhere yields an
empty selection and a normal skip, not an exception: the multi-run
loaders return `None`, the PageRank convergence branch finds no data from
any source, and `plot_push_vs_ppr` takes its explicit skip branch.  All
results are `.ok`, so the surrounding `main` loop counts them as
completed rather than failed. -/
theorem C7_empty_selection_skips :
    load_multiple_runs [] = Except.ok none ∧
    load_multiple_compare_runs [] = none ∧
    plot_convergence_pr ⟨[], none, none⟩ = Except.ok none ∧
    plot_push_vs_ppr ⟨[], none, none, none⟩ = Except.ok PushOutcome.skipped :=
  ⟨rfl, rfl, rfl, rfl⟩

/-- **C8.**  A parameter bucket with exactly one contributing observation
reports standard deviation exactly `0` (as `np.std` of a one-element
sample, whose variance is `0`), and the single-file fallback of the
community-threshold series appends a literal deviation `0`; in no case is
the deviation undefined. -/
theorem C8_singleton_bucket_zero_std :
    (∀ x : ℚ, npVar [x] = some 0) ∧
    (∀ x : ℚ, npStd [x] = some 0) ∧
    (∀ s : ℚ, communityThresholdEntry [] (some s) = .stats (some s) (some 0)) ∧
    (∀ x : ℚ, communityThresholdEntry [x] none = .stats (some x) (some 0)) := by
  have hvar : ∀ x : ℚ, npVar [x] = some 0 := by
    intro x
    simp [npVar]
  refine ⟨hvar, ?_, ?_, ?_⟩
  · intro x
    simp [npStd, hvar x]
  · intro s
    rfl
  · intro x
    simp [communityThresholdEntry, npMean, npVar]

/-- **C9.**  When the multi-run glob matches files but the first loaded
document is not a list (for example a JSON object), `load_multiple_runs`
returns `None` — the same value as when no file matched — so the caller
falls through to the single-file and legacy fallbacks even though
multi-run files exist on disk. -/
theorem C9_nonlist_multirun_falls_back :
    (∀ rest : List ConvDoc, load_multiple_runs (ConvDoc.objDoc :: rest) = Except.ok none) ∧
    (∀ (rest : List ConvDoc) (single test : Option ConvDoc),
      plot_convergence_pr ⟨ConvDoc.objDoc :: rest, single, test⟩ =
        plot_convergence_pr ⟨[], single, test⟩) := by
  constructor
  · intro rest
    rfl
  · intro rest single test
    rfl

/-- **C1, counterexample.**  The claim says a row lacking
`preprocessingTimeMs` is excluded from that metric's mean (three pooled
rows with the field absent, `2`, `4` should average `3.0` over count 2).
In the code the row contributes the `.get` default `0`
(`src/visualize.py` line 151): with three pooled PUSH rows for
`epsilon = 1e-3` whose `preprocessingTimeMs` fields are absent, `2`, `4`,
the emitted mean is `2.0` (count 3 with a fabricated zero), not `3.0`. -/
theorem C1_counterexample :
    (load_multiple_compare_runs
        [compDocPre none, compDocPre (some 2), compDocPre (some 4)]).map
      (fun agg => agg.push.map (fun p => p.preprocessingTimeMs)) = some [some 2] ∧
    some (2 : ℚ) ≠ some (3 : ℚ) := by
  constructor
  · simp [load_multiple_compare_runs, pushAvgOf, compDocPre, pprR, List.dedup_cons_of_mem,
      List.insertionSort, List.orderedInsert, List.filter, npMean]
    norm_num
  · norm_num

/-- **C1, amended.**  In every PUSH bucket of
`load_multiple_compare_runs`, a row that lacks the optional
`preprocessingTimeMs` field contributes the compatibility default `0` to
that metric's mean, and the row still counts: pooling three rows for one
epsilon whose fields are absent, `a`, `b` yields the mean
`(0 + a + b) / 3` over count 3, not `(a + b) / 2` over count 2. -/
theorem C1_missing_metric_defaults_zero (a b : ℚ) :
    (load_multiple_compare_runs
        [compDocPre none, compDocPre (some a), compDocPre (some b)]).map
      (fun agg => agg.push.map (fun p => p.preprocessingTimeMs)) =
      some [some ((0 + a + b) / 3)] := by
  simp [load_multiple_compare_runs, pushAvgOf, compDocPre, pprR, List.dedup_cons_of_mem,
    List.insertionSort, List.orderedInsert, List.filter, npMean]

/-- **C4, counterexample.**  The claim says every grouping reduction
partitions rows by the parsed numeric parameter value and never by a
re-rendered string.  The scalability reduction partitions by the string
`f"{tolerance:.0e}"`: the numerically distinct tolerances `1e-3` and
`0.0012` both render as `"1e-03"` and land in the same bucket, so the
partition is coarser than numeric equality. -/
theorem C4_counterexample :
    fmt0e (1/1000) = some "1e-03" ∧ fmt0e (3/2500) = some "1e-03" ∧
    ((1 : ℚ)/1000) ≠ 3/2500 ∧
    scalConvBucket [⟨1/1000, 5, 7⟩, ⟨3/2500, 6, 8⟩] "1e-03" =
      [⟨1/1000, 5, 7⟩, ⟨3/2500, 6, 8⟩] := by
  refine ⟨fmt0e_1000th, fmt0e_3_2500th, by norm_num, ?_⟩
  have hmem : ("1e-03" : String) ∈ scalPrKeys := by decide
  simp only [scalConvBucket, if_pos hmem, List.filter, fmt0e_1000th, fmt0e_3_2500th]
  rfl

/-- **C4, amended.**  The multi-run loaders do partition by the parsed
numeric parameter value: two rows from different files with numerically
equal `tolerance` always land in one shared bucket of
`load_multiple_runs`, whatever textual form the value had in the files.
The scalability reduction, by contrast, buckets by the re-rendered
`%.0e` string (see the counterexample). -/
theorem C4_numeric_grouping (x a b c d : ℚ) :
    load_multiple_runs [ConvDoc.listDoc [⟨x, a, b⟩], ConvDoc.listDoc [⟨x, c, d⟩]] =
      Except.ok (some [⟨x, npMean [a, c], npVar [a, c], npMean [b, d], npVar [b, d]⟩]) := by
  simp [load_multiple_runs, convAvgOf, ConvDoc.rows, ConvDoc.isList, List.dedup_cons_of_mem,
    List.insertionSort, List.orderedInsert, List.filter]

/-- **C3, counterexample.**  The claim says that whenever at least one
multi-run file matches the glob, the fallback files are never consulted.
With one matching multi-run file whose document is a JSON object and an
existing single-file fallback, `load_multiple_runs` returns `None`
(line 94) and the caller plots from the single file: a fallback is
consulted although a multi-run file exists. -/
theorem C3_counterexample :
    plot_convergence_pr ⟨[ConvDoc.objDoc], some (ConvDoc.listDoc [⟨1/1000, 5, 7⟩]), none⟩ =
      Except.ok (some PrSrc.singleFile) ∧
    ([ConvDoc.objDoc] : List ConvDoc) ≠ [] ∧
    PrSrc.singleFile ≠ PrSrc.multiRun :=
  ⟨rfl, by simp, by decide⟩

/-- **C3, amended.**  The multi-run set is authoritative whenever the
multi-run loader produces a truthy result: if every matching multi-run
document is a list and the pooled rows are non-empty, the PageRank branch
of `plot_convergence` plots from the multi-run set and never consults a
fallback; `plot_push_vs_ppr` plots from its multi-run set whenever at
least one file matches its glob.  (When the first multi-run document is
not a list, or the pooled rows are empty, the fallbacks are consulted —
see the counterexample.) -/
theorem C3_multirun_authoritative :
    (∀ fs : ConvFS, fs.runFiles.all (·.isList) = true → fs.runFiles ≠ [] →
      (fs.runFiles.map ConvDoc.rows).flatten ≠ [] →
      plot_convergence_pr fs = Except.ok (some PrSrc.multiRun)) ∧
    (∀ fs : PushFS, fs.runFiles ≠ [] →
      plot_push_vs_ppr fs = Except.ok (.plotted .multiRun)) := by
  constructor
  · intro fs hlist hne hrows
    obtain ⟨runs, single, test⟩ := fs
    dsimp only at hlist hne hrows ⊢
    cases runs with
    | nil => exact absurd rfl hne
    | cons first rest =>
      cases first with
      | objDoc => simp [ConvDoc.isList] at hlist
      | listDoc rs =>
        have hld : load_multiple_runs (ConvDoc.listDoc rs :: rest) =
            Except.ok (some (((((ConvDoc.listDoc rs :: rest).map ConvDoc.rows).flatten.map
                (fun r => r.tolerance)).dedup.insertionSort (· ≤ ·)).map
              (convAvgOf (((ConvDoc.listDoc rs :: rest).map ConvDoc.rows).flatten)))) := by
          rw [load_multiple_runs, if_pos hlist]
        have hkeys : ((((ConvDoc.listDoc rs :: rest).map ConvDoc.rows).flatten.map
            (fun r => r.tolerance)).dedup).insertionSort (· ≤ ·) ≠ [] := by
          intro hc
          have hp := List.perm_insertionSort (fun a b : ℚ => a ≤ b)
            ((((ConvDoc.listDoc rs :: rest).map ConvDoc.rows).flatten.map
              (fun r => r.tolerance)).dedup)
          rw [hc] at hp
          have hd := hp.symm.eq_nil
          rw [List.dedup_eq_nil, List.map_eq_nil_iff] at hd
          exact hrows hd
        have hmapne : (((((ConvDoc.listDoc rs :: rest).map ConvDoc.rows).flatten.map
            (fun r => r.tolerance)).dedup).insertionSort (· ≤ ·)).map
            (convAvgOf (((ConvDoc.listDoc rs :: rest).map ConvDoc.rows).flatten)) ≠ [] := by
          intro hmap
          exact hkeys (List.map_eq_nil_iff.mp hmap)
        obtain ⟨y, ys, hys⟩ := List.exists_cons_of_ne_nil hmapne
        rw [plot_convergence_pr]
        dsimp only
        rw [hld]
        dsimp only
        rw [truthyList, hys]
        simp
  · intro fs hne
    obtain ⟨runs, single, old, test⟩ := fs
    dsimp only at hne ⊢
    cases runs with
    | nil => exact absurd rfl hne
    | cons d rest =>
      simp [plot_push_vs_ppr, load_multiple_compare_runs]

/-- **C3, witness.**  Concrete instantiation of the amended claim: one
list-shaped multi-run file with one row makes the convergence branch plot
from the multi-run set even though a single-file fallback also exists,
and one comparison multi-run file makes `plot_push_vs_ppr` plot from its
multi-run set. -/
theorem C3_multirun_authoritative_witness :
    plot_convergence_pr ⟨[ConvDoc.listDoc [⟨1/1000, 5, 7⟩]],
        some (ConvDoc.listDoc [⟨1/1000, 5, 7⟩]), none⟩ =
      Except.ok (some PrSrc.multiRun) ∧
    plot_push_vs_ppr ⟨[compDocPre none], none, none, none⟩ =
      Except.ok (.plotted .multiRun) :=
  ⟨C3_multirun_authoritative.1 _ (by decide) (by simp) (by simp [ConvDoc.rows]),
   C3_multirun_authoritative.2 _ (by simp)⟩

/-- **C5, counterexample.**  The claim says that for mismatched epsilon
sets the assembler intersects to the common set or surfaces a
`PartialAggregate` condition, never silently emitting entries for
parameter values absent from one side.  With one document whose `push`
list holds only `epsilon = 1e-2` and whose `speedup` list holds only
`epsilon = 1e-3`, the emitted speedup aggregate has exactly one entry —
for `1e-2`, absent from the speedup input, with NaN (empty-sample) mean —
and the speedup-side value `1e-3` is silently dropped. -/
theorem C5_counterexample :
    (load_multiple_compare_runs [compDocMismatch]).map
        (fun agg => agg.speedup.map (fun s => (s.epsilon, s.speedupFactorTotal))) =
      some [(1/100, none)] ∧
    (load_multiple_compare_runs [compDocMismatch]).map
        (fun agg => agg.push.map (fun p => p.epsilon)) = some [1/100] ∧
    compDocMismatch.speedup.map (fun s => s.epsilon) = [1/1000] ∧
    ((1 : ℚ)/100) ≠ 1/1000 := by
  have hne : ((1 : ℚ)/1000) ≠ 1/100 := by norm_num
  refine ⟨?_, ?_, by simp [compDocMismatch], by norm_num⟩
  · simp [load_multiple_compare_runs, pushAvgOf, speedupAvgOf, compDocMismatch, pprR,
      List.insertionSort, List.orderedInsert, List.filter, hne, npMean]
  · simp [load_multiple_compare_runs, pushAvgOf, speedupAvgOf, compDocMismatch, pprR,
      List.insertionSort, List.orderedInsert, List.filter, npMean]

/-- **C5, amended.**  The per-epsilon PUSH aggregate and the per-epsilon
speedup aggregate always share the same sorted parameter-value sequence,
because both output lists are emitted in a single loop over the sorted
PUSH-side epsilon keys.  Mismatched input sets are neither intersected
nor reported: a PUSH-side epsilon with no speedup observation gets a
speedup entry with NaN (empty-sample) statistics, and a speedup-only
epsilon is silently dropped (see the counterexample). -/
theorem C5_shared_sorted_keys (docs : List CompareDoc) (agg : CompareAvg)
    (h : load_multiple_compare_runs docs = some agg) :
    agg.push.map (fun p => p.epsilon) = agg.speedup.map (fun s => s.epsilon) ∧
    List.Sorted (· ≤ ·) (agg.push.map (fun p => p.epsilon)) := by
  cases docs with
  | nil => simp [load_multiple_compare_runs] at h
  | cons d rest =>
    simp only [load_multiple_compare_runs, Option.some.injEq] at h
    subst h
    dsimp only
    constructor
    · rw [map_epsilon_pushAvgOf, map_epsilon_speedupAvgOf]
    · rw [map_epsilon_pushAvgOf]
      exact List.sorted_insertionSort _ _

/-- **C5, witness.**  Concrete instantiation of the amended claim at a
comparison document with empty `push` and `speedup` lists. -/
theorem C5_shared_sorted_keys_witness :
    ([] : List PushAvg).map (fun p => p.epsilon) =
      ([] : List SpeedupAvg).map (fun s => s.epsilon) ∧
    List.Sorted (· ≤ ·) (([] : List PushAvg).map (fun p => p.epsilon)) :=
  C5_shared_sorted_keys [compDocEmpty]
    ⟨⟨npMean [1], npMean [1], npMean [0], npMean [1], npMean [1]⟩, [], []⟩ rfl

/-- **C10.**  In the scalability aggregation a convergence row contributes
to a statistic exactly when its tolerance formats under `%.0e` to one of
the pre-seeded keys `"1e-03"`, `"1e-05"`, `"1e-07"`, and a PUSH row
exactly when its epsilon formats to one of `"1e-02"`, `"1e-03"`,
`"1e-04"`, `"1e-05"`; those keys are reached by the numeric values
`1e-3`, `1e-5`, `1e-7`, `1e-2`, and any other row — for example one with
tolerance `1e-4` — is dropped from every bucket, with no error and no
report (the bucketing functions are total). -/
theorem C10_scalability_fixed_keys :
    (∀ (rows : List ConvRow) (r : ConvRow) (k : String),
      r ∈ scalConvBucket rows k ↔
        r ∈ rows ∧ fmt0e r.tolerance = some k ∧ k ∈ scalPrKeys) ∧
    (∀ (rows : List PushRow) (p : PushRow) (k : String),
      p ∈ scalPushBucket rows k ↔
        p ∈ rows ∧ fmt0e p.epsilon = some k ∧ k ∈ scalPushKeys) ∧
    (fmt0e (1/1000) = some "1e-03" ∧ fmt0e (1/100000) = some "1e-05" ∧
      fmt0e (1/10000000) = some "1e-07" ∧ fmt0e (1/100) = some "1e-02" ∧
      fmt0e (1/10000) = some "1e-04") ∧
    (∀ k : String, scalConvBucket [⟨1/10000, 5, 7⟩] k = []) := by
  refine ⟨?_, ?_, ⟨fmt0e_1000th, fmt0e_100000th, fmt0e_10000000th,
    fmt0e_100th, fmt0e_10000th⟩, ?_⟩
  · intro rows r k
    by_cases hk : k ∈ scalPrKeys <;>
      simp [scalConvBucket, hk, List.mem_filter]
  · intro rows p k
    by_cases hk : k ∈ scalPushKeys <;>
      simp [scalPushBucket, hk, List.mem_filter]
  · intro k
    by_cases hk : k ∈ scalPrKeys
    · have hne : ¬ ("1e-04" : String) = k := by
        fin_cases hk <;> decide
      simp only [scalConvBucket, if_pos hk, List.filter, fmt0e_10000th,
        Option.some.injEq]
      simp [hne]
    · simp [scalConvBucket, hk]

end Visualize
